import Mathlib

/-!
# Verification of the SOAP adapter layer of RealDeCuenca

Shallow embedding of the SOAP adapter functions of `webapp/servicios/`
(files `wsHotel.py`, `wsReservas.py`, `wsTipoAlimentacion.py`,
`wsUsuarios.py`, `wsEspXRes.py`, `wsPagos.py`).

Modelling conventions:
* A Python dict result with alternative shapes is embedded as an inductive
  type, with one constructor per shape that the source can return.
* Machine-level HTTP is abstracted as an `HttpOutcome`: either a transport
  failure (the message of the raised `requests.exceptions.RequestException`,
  as produced by `str(ex)`) or a response carrying the status code, the raw
  body text and the result of `xml.etree.ElementTree.fromstring` on that
  text.  The XML parse is supplied as data (`Except String XmlElem`, the
  error string being the `ParseError` message) because the adapter treats
  the parser as a black box; nothing in the source inspects the body text
  and its parse together except `wsEspXRes.espacioDisponible`, which only
  uses the raw text and is embedded that way.
* XML tags are compared by their namespace-resolved name; since every tag
  the adapters touch lives in the single namespace `http://tempuri.org/`,
  tags are embedded as their local names.
* `datetime.now().isoformat()` is impure; functions that use it take the
  current timestamp as an explicit `now : String` argument.
* Python `str.lower` / `str.strip` are embedded on their ASCII fragment
  (all strings the adapters compare are ASCII).
* Python `int(s)` is embedded without the underscore-grouping extension
  (`int("1_2")`); no adapter input uses it.  Its `ValueError` message is
  embedded for strings that contain no quote character (Python inserts
  `repr(s)`; on such strings `repr` is plain single-quoting).
* Python `float(s)` (used only by the permissive `safe_float` helpers) is
  embedded into `ℚ`; IEEE-754 rounding and `inf`/`nan` literals are not
  modelled, and no claim depends on the numeric value of a float field.
-/

mutual
/-- A parsed XML element: tag, text content (`None` in Python for an empty
element, hence `Option`), and the child elements in document order.
Mirrors the fragment of `xml.etree.ElementTree.Element` that the adapters
use.  The children are a mutually-defined forest rather than a `List` so
that the traversals below are structurally recursive and reduce. -/
inductive XmlElem where
  | mk : String → Option String → XmlForest → XmlElem

/-- A sequence of sibling XML elements. -/
inductive XmlForest where
  | nil : XmlForest
  | cons : XmlElem → XmlForest → XmlForest
end

def XmlElem.tag : XmlElem → String
  | .mk t _ _ => t

def XmlElem.text : XmlElem → Option String
  | .mk _ s _ => s

def XmlElem.forest : XmlElem → XmlForest
  | .mk _ _ c => c

def XmlForest.toList : XmlForest → List XmlElem
  | .nil => []
  | .cons e es => e :: es.toList

def XmlForest.ofList : List XmlElem → XmlForest
  | [] => .nil
  | e :: es => .cons e (XmlForest.ofList es)

/-- The child elements of an element, as a list. -/
def XmlElem.children (e : XmlElem) : List XmlElem :=
  e.forest.toList

/-- Element constructor taking the children as a list. -/
def xmlE (t : String) (s : Option String) (cs : List XmlElem) : XmlElem :=
  XmlElem.mk t s (XmlForest.ofList cs)

mutual
/-- The element together with all its descendants, in document
(preorder) order. -/
def XmlElem.preorder : XmlElem → List XmlElem
  | .mk t s c => XmlElem.mk t s c :: c.preorderF

/-- All elements of a forest and their descendants, in document order. -/
def XmlForest.preorderF : XmlForest → List XmlElem
  | .nil => []
  | .cons e es => e.preorder ++ es.preorderF
end

/-- `root.find(".//tag", ns)`: first proper descendant of `root` with the
tag, in document order. -/
def findDesc (tag : String) (root : XmlElem) : Option XmlElem :=
  root.forest.preorderF.find? (fun c => c.tag = tag)

/-- `root.findall(".//tag", ns)`: all proper descendants of `root` with
the tag, in document order. -/
def findAllDesc (tag : String) (root : XmlElem) : List XmlElem :=
  root.forest.preorderF.filter (fun c => c.tag = tag)

/-- `element.find("tag", ns)`: first direct child with the tag. -/
def findChild (tag : String) (e : XmlElem) : Option XmlElem :=
  e.children.find? (fun c => c.tag = tag)

/-- `element.findall("tag", ns)`: all direct children with the tag. -/
def findChildren (tag : String) (e : XmlElem) : List XmlElem :=
  e.children.filter (fun c => c.tag = tag)

/-- `element.findtext("tag", default, ns)`: text of the first matching
child (the empty string when the text of that element is `None`), or the
default when there is no such child. -/
def findtext (tag : String) (dflt : String) (e : XmlElem) : String :=
  match findChild tag e with
  | some c => c.text.getD ""
  | none => dflt

/-- ASCII fragment of Python `str.lower`. -/
def pyLower (s : String) : String :=
  ⟨s.toList.map (fun c => if 'A' ≤ c ∧ c ≤ 'Z' then Char.ofNat (c.toNat + 32) else c)⟩

/-- Python whitespace test for `str.strip` (ASCII fragment). -/
def pyIsSpace (c : Char) : Bool :=
  c = ' ' ∨ c = '\t' ∨ c = '\n' ∨ c = '\r' ∨ c = '\x0b' ∨ c = '\x0c'

/-- ASCII fragment of Python `str.strip()`. -/
def pyStrip (s : String) : String :=
  ⟨(s.toList.dropWhile pyIsSpace).reverse.dropWhile pyIsSpace |>.reverse⟩

/-- Does the second character list start with the first? -/
def listStartsWith : List Char → List Char → Bool
  | [], _ => true
  | _ :: _, [] => false
  | a :: as, b :: bs => a = b ∧ listStartsWith as bs

/-- Worker for `pySplit`: scans left to right, cutting at each leftmost
non-overlapping occurrence of the (nonempty) separator.  The fuel is the
length of the remaining input, so the fuel-exhausted branch is never
taken; it only makes the recursion structural. -/
def pySplitGo (sep : List Char) : Nat → List Char → List Char → List (List Char)
  | _, [], acc => [acc.reverse]
  | 0, s, acc => [acc.reverse ++ s]
  | fuel + 1, c :: rest, acc =>
      if listStartsWith sep (c :: rest) then
        acc.reverse :: pySplitGo sep fuel (List.drop (sep.length - 1) rest) []
      else
        pySplitGo sep fuel rest (c :: acc)

/-- Python `s.split(sep)` for a nonempty separator. -/
def pySplit (s sep : String) : List String :=
  (pySplitGo sep.toList s.toList.length s.toList []).map (fun l => ⟨l⟩)

/-- Python `sub in s` for a nonempty `sub` (via `str.split` semantics). -/
def pyContains (sub s : String) : Bool :=
  2 ≤ (pySplit s sub).length

/-- Digit-string value as a natural number. -/
def digitsVal (l : List Char) : Nat :=
  l.foldl (fun a c => a * 10 + (c.toNat - '0'.toNat)) 0

/-- Python `int(s)` on its successful inputs: optional surrounding
whitespace, optional sign, a nonempty digit run (underscore grouping not
modelled).  `none` models the `ValueError` raise. -/
def pyIntParse (s : String) : Option Int :=
  let l := pyStrip s |>.toList
  let (sign, rest) :=
    match l with
    | '+' :: r => ((1 : Int), r)
    | '-' :: r => ((-1 : Int), r)
    | r => ((1 : Int), r)
  if rest ≠ [] ∧ rest.all (·.isDigit) then some (sign * digitsVal rest) else none

/-- The single-quote character, used in message strings of the adapters
and of the Python runtime. -/
def apos : String := String.singleton (Char.ofNat 39)

/-- The `ValueError` message of Python `int(s)` (for quote-free `s`,
where `repr(s)` is plain single-quoting). -/
def pyIntErrMsg (s : String) : String :=
  "invalid literal for int() with base 10: " ++ apos ++ s ++ apos

/-- Python `int(s)`, with the `ValueError` carried as `Except.error`. -/
def pyIntE (s : String) : Except String Int :=
  match pyIntParse s with
  | some n => .ok n
  | none => .error (pyIntErrMsg s)

/-- Python `float(s)` on finite decimal literals: optional surrounding
whitespace, optional sign, digits with an optional fractional part and an
optional decimal exponent.  `inf`/`nan` and hex floats are not modelled;
the value is embedded exactly in `ℚ` (IEEE rounding dropped — no claim
reads the numeric value of a float field). -/
def pyFloatParse (s : String) : Option ℚ :=
  let l := pyStrip s |>.toList
  let (sign, rest) :=
    match l with
    | '+' :: r => ((1 : Int), r)
    | '-' :: r => ((-1 : Int), r)
    | r => ((1 : Int), r)
  let intPart := rest.takeWhile (·.isDigit)
  let rest1 := rest.drop intPart.length
  let (fracPart, rest2) :=
    match rest1 with
    | '.' :: r => (r.takeWhile (·.isDigit), (r.drop ((r.takeWhile (·.isDigit)).length)))
    | r => ([], r)
  if intPart = [] ∧ fracPart = [] then none
  else
    let mant : Int := sign * (digitsVal intPart * 10 ^ fracPart.length + digitsVal fracPart)
    let value : Int → Option ℚ := fun expo =>
      let e : Int := expo - fracPart.length
      if 0 ≤ e then some ((mant * 10 ^ e.toNat : Int) : ℚ)
      else some (Rat.divInt mant (10 ^ (-e).toNat))
    match rest2 with
    | [] => value 0
    | e :: r3 =>
        if e = 'e' ∨ e = 'E' then
          let (esign, r4) :=
            match r3 with
            | '+' :: r => ((1 : Int), r)
            | '-' :: r => ((-1 : Int), r)
            | r => ((1 : Int), r)
          if r4 ≠ [] ∧ r4.all (·.isDigit) then
            value (esign * (digitsVal r4 : Int))
          else none
        else none

/-- Python `int(x)` on a float: truncation toward zero. -/
def pyTruncQ (q : ℚ) : Int :=
  if 0 ≤ q then q.floor else q.ceil

/-- Outbound HTTP POST as built by an adapter: URL, `Content-Type` header,
`SOAPAction` header, body, and the `timeout=` argument in seconds. -/
structure HttpRequest where
  url : String
  contentType : String
  soapAction : String
  body : String
  timeout : Nat
deriving DecidableEq, Repr

/-- An HTTP response: status code, raw body text, and the outcome of
`ET.fromstring` on that text (`Except.error` carries the `ParseError`
message).  The parse is supplied alongside the text because the adapters
treat the XML parser as a black box. -/
structure HttpResponse where
  status : Nat
  text : String
  xml : Except String XmlElem

/-- What `requests.post` did: raised a `RequestException` (carrying
`str(ex)`) or returned a response. -/
inductive HttpOutcome where
  | transportError (msg : String)
  | response (r : HttpResponse)

/-- `str(ex)` of the `AttributeError` raised by `None.strip()`, which the
adapters hit when a result element is empty (`element.text is None`). -/
def noneStripMsg : String :=
  apos ++ "NoneType" ++ apos ++ " object has no attribute " ++ apos ++ "strip" ++ apos

/-- `str(b).lower()` for a Python `bool`, as used to serialize `EsActivo`
in `wsHotel.actualizarHotel` / `insertarHotel`. -/
def pyBoolStr (b : Bool) : String :=
  if b then "true" else "false"

namespace wsHotel

def SOAP_URL : String :=
  "https://realdecuenca-btccaacvcpgyadhb.canadacentral-01.azurewebsites.net/WS_GestionHotel.asmx"

/-- The `hotel` dict argument of `actualizarHotel`: `none` models an
absent key (`isinstance` checks are subsumed by the field types). -/
structure HotelUpd where
  Id : Option Int
  Nombre : Option String
  FechaRegistro : Option String
  UltimaFechaCambio : Option String
  EsActivo : Option Bool

/-- Return shape of `actualizarHotel` / `eliminarHotel`:
`{"error": str, "detalle"?: str}` or `{"exito": bool, "mensaje": str}`. -/
inductive SimpleResult where
  | error (msg : String) (detalle : Option String)
  | exito (ok : Bool) (mensaje : String)
deriving DecidableEq, Repr

/-- A decoded `<Hotel>` record. -/
structure Hotel where
  Id : Int
  Nombre : String
  FechaRegistro : String
  UltimaFechaCambio : String
  EsActivo : Bool
deriving DecidableEq, Repr

/-- Return shape of the hotel-list operations: `{"error": ...}` or
`{"exito": bool, "hoteles": [...], "mensaje": str}`. -/
inductive ListResult where
  | error (msg : String) (detalle : Option String)
  | ok (exito : Bool) (hoteles : List Hotel) (mensaje : String)
deriving DecidableEq, Repr

/-- Return shape of `seleccionarHotelPorId`: `{"error": ...}` or
`{"exito": bool, "hotel": {...} | None, "mensaje": str}`. -/
inductive OneResult where
  | error (msg : String) (detalle : Option String)
  | ok (exito : Bool) (hotel : Option Hotel) (mensaje : String)
deriving DecidableEq, Repr

/-- The SOAP body f-string of `actualizarHotel` (lines 61-76), with the
three interpolated values already resolved by the caller. -/
def actualizarHotel_body (id : Int) (nombre fechaRegistro ultimaFechaCambio esActivo : String) : String :=
  "<?xml version=\"1.0\" encoding=\"utf-8\"?>\n" ++
  "        <soapenv:Envelope xmlns:soapenv=\"http://schemas.xmlsoap.org/soap/envelope/\"\n" ++
  "                          xmlns:tem=\"http://tempuri.org/\">\n" ++
  "          <soapenv:Header/>\n" ++
  "          <soapenv:Body>\n" ++
  "            <tem:actualizarHotel>\n" ++
  "              <tem:hotelEditado>\n" ++
  "                " ++ "<tem:Id>" ++ toString id ++ "</tem:Id>" ++ "\n" ++
  "                " ++ "<tem:Nombre>" ++ nombre ++ "</tem:Nombre>" ++ "\n" ++
  "                " ++ "<tem:FechaRegistro>" ++ fechaRegistro ++ "</tem:FechaRegistro>" ++ "\n" ++
  "                " ++ "<tem:UltimaFechaCambio>" ++ ultimaFechaCambio ++ "</tem:UltimaFechaCambio>" ++ "\n" ++
  "                " ++ "<tem:EsActivo>" ++ esActivo ++ "</tem:EsActivo>" ++ "\n" ++
  "              </tem:hotelEditado>\n" ++
  "            </tem:actualizarHotel>\n" ++
  "          </soapenv:Body>\n" ++
  "        </soapenv:Envelope>"

/-- The POST of `actualizarHotel` for a hotel that passed validation
(`now` stands for `datetime.now().isoformat()`). -/
def actualizarHotel_request (id : Int) (nombre : String) (fr ufc : Option String)
    (ea : Option Bool) (now : String) : HttpRequest :=
  { url := SOAP_URL
    contentType := "text/xml; charset=utf-8"
    soapAction := "http://tempuri.org/actualizarHotel"
    body := actualizarHotel_body id nombre (fr.getD now) (ufc.getD now) (pyBoolStr (ea.getD true))
    timeout := 30 }

/-- `wsHotel.actualizarHotel` (lines 18-118).  Validation happens before
the POST; the HTTP outcome is consumed afterwards.  The defaulted dates
only enter the request body (`actualizarHotel_request`), so the result
does not depend on the current time. -/
def actualizarHotel (hotel : HotelUpd) (outcome : HttpOutcome) : SimpleResult :=
  match hotel.Id with
  | none => .error ("El campo " ++ apos ++ "Id" ++ apos ++ " del hotel es obligatorio y debe ser un número entero válido.") none
  | some i =>
    if i ≤ 0 then
      .error ("El campo " ++ apos ++ "Id" ++ apos ++ " del hotel es obligatorio y debe ser un número entero válido.") none
    else
      match hotel.Nombre with
      | none => .error ("El campo " ++ apos ++ "Nombre" ++ apos ++ " es obligatorio para actualizar un hotel.") none
      | some nombre =>
        if nombre = "" then
          .error ("El campo " ++ apos ++ "Nombre" ++ apos ++ " es obligatorio para actualizar un hotel.") none
        else
          match outcome with
          | .transportError m => .error m none
          | .response r =>
            if r.status ≠ 200 then
              .error ("HTTP " ++ toString r.status) (some r.text)
            else
              match r.xml with
              | .error m => .error m none
              | .ok root =>
                match findDesc "actualizarHotelResult" root with
                | none => .exito false "No se pudo determinar si la actualización fue exitosa."
                | some node =>
                  match node.text with
                  | none => .error noneStripMsg none
                  | some t =>
                    if pyLower (pyStrip t) = "true" then
                      .exito true ("Hotel " ++ apos ++ nombre ++ apos ++ " actualizado exitosamente.")
                    else
                      .exito false "No se pudo actualizar el hotel."

/-- Decoding of one `<Hotel>` element (`buscarHotelPorNombre` lines
204-211, `seleccionarHoteles` lines 715-721): bare `int()` on the `Id`
text, so a non-numeric `Id` raises (`Except.error`). -/
def decodeHotelNode (n : XmlElem) : Except String Hotel := do
  let id ← pyIntE (findtext "Id" "0" n)
  return { Id := id
           Nombre := findtext "Nombre" "" n
           FechaRegistro := findtext "FechaRegistro" "" n
           UltimaFechaCambio := findtext "UltimaFechaCambio" "" n
           EsActivo := pyLower (findtext "EsActivo" "false" n) = "true" }

/-- The record loop of `buscarHotelPorNombre` (lines 203-213): records
whose decoded `Id` is not positive are dropped; a decode exception aborts
the whole loop. -/
def buscarLoop : List XmlElem → Except String (List Hotel)
  | [] => .ok []
  | n :: ns => do
      let h ← decodeHotelNode n
      let rest ← buscarLoop ns
      return if 0 < h.Id then h :: rest else rest

/-- `wsHotel.buscarHotelPorNombre` (lines 123-224). -/
def buscarHotelPorNombre (nombre : String) (outcome : HttpOutcome) : ListResult :=
  if nombre = "" then
    .error ("El parámetro " ++ apos ++ "nombre" ++ apos ++ " es obligatorio y debe ser una cadena de texto.") none
  else
    match outcome with
    | .transportError m => .error m none
    | .response r =>
      if r.status ≠ 200 then
        .error ("HTTP " ++ toString r.status) (some r.text)
      else
        match r.xml with
        | .error m => .error m none
        | .ok root =>
          match findDesc "buscarHotelPorNombreResult" root with
          | none => .ok false [] "No se encontraron coincidencias."
          | some resNode =>
            match buscarLoop (findChildren "Hotel" resNode) with
            | .error m => .error m none
            | .ok hoteles =>
              if hoteles = [] then .ok true [] "No se encontraron hoteles con ese nombre."
              else .ok true hoteles "Hoteles encontrados correctamente."

/-- `wsHotel.seleccionarHoteles` (lines 651-735): per-record `try` /
`except`, so a record that fails to decode is skipped, not fatal. -/
def seleccionarHoteles (outcome : HttpOutcome) : ListResult :=
  match outcome with
  | .transportError m => .error m none
  | .response r =>
    if r.status ≠ 200 then
      .error ("HTTP " ++ toString r.status) (some r.text)
    else
      match r.xml with
      | .error m => .error m none
      | .ok root =>
        match findDesc "seleccionarHotelesResult" root with
        | none => .ok false [] "No se encontraron hoteles activos."
        | some resNode =>
          let hoteles := (findChildren "Hotel" resNode).filterMap
            (fun n => (decodeHotelNode n).toOption)
          if hoteles = [] then .ok true [] "No hay hoteles registrados o activos."
          else .ok true hoteles "Hoteles obtenidos correctamente."

/-- The SOAP body f-string of `eliminarHotel` (lines 257-266). -/
def eliminarHotel_body (hotel_id : Int) : String :=
  "<?xml version=\"1.0\" encoding=\"utf-8\"?>\n" ++
  "        <soapenv:Envelope xmlns:soapenv=\"http://schemas.xmlsoap.org/soap/envelope/\"\n" ++
  "                          xmlns:tem=\"http://tempuri.org/\">\n" ++
  "           <soapenv:Header/>\n" ++
  "           <soapenv:Body>\n" ++
  "              <tem:eliminarHotel>\n" ++
  "                 <tem:id>" ++ toString hotel_id ++ "</tem:id>\n" ++
  "              </tem:eliminarHotel>\n" ++
  "           </soapenv:Body>\n" ++
  "        </soapenv:Envelope>"

def eliminarHotel_request (hotel_id : Int) : HttpRequest :=
  { url := SOAP_URL
    contentType := "text/xml; charset=utf-8"
    soapAction := "http://tempuri.org/eliminarHotel"
    body := eliminarHotel_body hotel_id
    timeout := 30 }

/-- Validation phase of `eliminarHotel` (lines 251-252): an id that is not
a positive integer yields the validation error and no request is built. -/
def eliminarHotel_prepare (hotel_id : Int) : Except SimpleResult HttpRequest :=
  if hotel_id ≤ 0 then
    .error (.error ("El parámetro " ++ apos ++ "hotel_id" ++ apos ++ " debe ser un número entero positivo.") none)
  else
    .ok (eliminarHotel_request hotel_id)

/-- `wsHotel.eliminarHotel` (lines 229-308). -/
def eliminarHotel (hotel_id : Int) (outcome : HttpOutcome) : SimpleResult :=
  match eliminarHotel_prepare hotel_id with
  | .error e => e
  | .ok _ =>
    match outcome with
    | .transportError m => .error m none
    | .response r =>
      if r.status ≠ 200 then
        .error ("HTTP " ++ toString r.status) (some r.text)
      else
        match r.xml with
        | .error m => .error m none
        | .ok root =>
          match findDesc "eliminarHotelResult" root with
          | none => .exito false "No se pudo determinar si la eliminación fue exitosa."
          | some node =>
            match node.text with
            | none => .error noneStripMsg none
            | some t =>
              if pyLower (pyStrip t) = "true" then
                .exito true ("Hotel con ID=" ++ toString hotel_id ++ " eliminado correctamente.")
              else
                .exito false "No se pudo eliminar el hotel."

/-- The SOAP body f-string of `seleccionarHotelPorId` (lines 589-598). -/
def seleccionarHotelPorId_body (hotel_id : Int) : String :=
  "<?xml version=\"1.0\" encoding=\"utf-8\"?>\n" ++
  "        <soapenv:Envelope xmlns:soapenv=\"http://schemas.xmlsoap.org/soap/envelope/\"\n" ++
  "                          xmlns:tem=\"http://tempuri.org/\">\n" ++
  "           <soapenv:Header/>\n" ++
  "           <soapenv:Body>\n" ++
  "              <tem:seleccionarHotelPorId>\n" ++
  "                 <tem:id>" ++ toString hotel_id ++ "</tem:id>\n" ++
  "              </tem:seleccionarHotelPorId>\n" ++
  "           </soapenv:Body>\n" ++
  "        </soapenv:Envelope>"

def seleccionarHotelPorId_request (hotel_id : Int) : HttpRequest :=
  { url := SOAP_URL
    contentType := "text/xml; charset=utf-8"
    soapAction := "http://tempuri.org/seleccionarHotelPorId"
    body := seleccionarHotelPorId_body hotel_id
    timeout := 30 }

/-- Validation phase of `seleccionarHotelPorId` (lines 583-584). -/
def seleccionarHotelPorId_prepare (hotel_id : Int) : Except OneResult HttpRequest :=
  if hotel_id ≤ 0 then
    .error (.error ("El parámetro " ++ apos ++ "hotel_id" ++ apos ++ " debe ser un número entero positivo.") none)
  else
    .ok (seleccionarHotelPorId_request hotel_id)

/-- `wsHotel.seleccionarHotelPorId` (lines 560-645): the hotel record is
decoded from the children of the result node itself (same field map as
`decodeHotelNode`, bare `int()` on `Id` included). -/
def seleccionarHotelPorId (hotel_id : Int) (outcome : HttpOutcome) : OneResult :=
  match seleccionarHotelPorId_prepare hotel_id with
  | .error e => e
  | .ok _ =>
    match outcome with
    | .transportError m => .error m none
    | .response r =>
      if r.status ≠ 200 then
        .error ("HTTP " ++ toString r.status) (some r.text)
      else
        match r.xml with
        | .error m => .error m none
        | .ok root =>
          match findDesc "seleccionarHotelPorIdResult" root with
          | none => .ok false none "No se encontró información del hotel."
          | some resNode =>
            match decodeHotelNode resNode with
            | .error m => .error m none
            | .ok h => .ok true (some h) "Hotel obtenido correctamente."

/-- The SOAP body f-string of `buscarHotelPorNombre` (lines 160-169). -/
def buscarHotelPorNombre_body (nombre : String) : String :=
  "<?xml version=\"1.0\" encoding=\"utf-8\"?>\n" ++
  "        <soapenv:Envelope xmlns:soapenv=\"http://schemas.xmlsoap.org/soap/envelope/\"\n" ++
  "                          xmlns:tem=\"http://tempuri.org/\">\n" ++
  "           <soapenv:Header/>\n" ++
  "           <soapenv:Body>\n" ++
  "              <tem:buscarHotelPorNombre>\n" ++
  "                 <tem:nombre>" ++ nombre ++ "</tem:nombre>\n" ++
  "              </tem:buscarHotelPorNombre>\n" ++
  "           </soapenv:Body>\n" ++
  "        </soapenv:Envelope>"

def buscarHotelPorNombre_request (nombre : String) : HttpRequest :=
  { url := SOAP_URL
    contentType := "text/xml; charset=utf-8"
    soapAction := "http://tempuri.org/buscarHotelPorNombre"
    body := buscarHotelPorNombre_body nombre
    timeout := 30 }

/-- The static SOAP body of `seleccionarHoteles` (lines 671-678). -/
def seleccionarHoteles_body : String :=
  "<?xml version=\"1.0\" encoding=\"utf-8\"?>\n" ++
  "        <soapenv:Envelope xmlns:soapenv=\"http://schemas.xmlsoap.org/soap/envelope/\"\n" ++
  "                          xmlns:tem=\"http://tempuri.org/\">\n" ++
  "           <soapenv:Header/>\n" ++
  "           <soapenv:Body>\n" ++
  "              <tem:seleccionarHoteles/>\n" ++
  "           </soapenv:Body>\n" ++
  "        </soapenv:Envelope>"

def seleccionarHoteles_request : HttpRequest :=
  { url := SOAP_URL
    contentType := "text/xml; charset=utf-8"
    soapAction := "http://tempuri.org/seleccionarHoteles"
    body := seleccionarHoteles_body
    timeout := 30 }

end wsHotel

namespace wsReservas

def SOAP_URL : String :=
  "https://realdecuenca-btccaacvcpgyadhb.canadacentral-01.azurewebsites.net/WS_GestionReservas.asmx"

/-- Module-level `safe_int` of `wsReservas.py`.  The definition at line
24 is shadowed by the redefinition at lines 32-36, which is the one every
caller sees: `int(value)` with `ValueError`/`TypeError` mapped to `0`. -/
def safe_int (value : String) : Int :=
  (pyIntParse value).getD 0

/-- Module-level `safe_float` (lines 38-44): `None`/blank input gives the
default, as does any `float()` failure. -/
def safe_float (value : String) : ℚ :=
  if pyStrip value = "" then 0
  else (pyFloatParse value).getD 0

/-- `safe_bool` (lines 47-51): `str(value).strip().lower() == "true"`. -/
def safe_bool (value : String) : Bool :=
  pyLower (pyStrip value) = "true"

/-- The `safe_int` defined locally inside `seleccionarReservasPorUsuario`
(lines 78-84): blank or `"none"` text gives the default, otherwise
`int(float(value))` (truncation), any failure giving the default. -/
def safe_int_loc (value : String) : Int :=
  if pyStrip value = "" ∨ pyLower value = "none" then 0
  else
    match pyFloatParse value with
    | some q => pyTruncQ q
    | none => 0

/-- The `safe_float` defined locally inside `seleccionarReservasPorUsuario`
(lines 86-92). -/
def safe_float_loc (value : String) : ℚ :=
  if pyStrip value = "" ∨ pyLower value = "none" then 0
  else (pyFloatParse value).getD 0

/-- A decoded `<Reservas>` record (lines 142-158). -/
structure Reserva where
  Id : Int
  UsuarioId : Int
  UsuarioExternoId : Int
  Estado : String
  Comentarios : String
  CostoSubtotal : ℚ
  CostoIVA : ℚ
  CostoFinal : ℚ
  MinutosRetencion : Int
  ExpiraEn : Int
  EsBloqueada : Bool
  TokenSesion : String
  FechaRegistro : String
  UltimaFechaCambio : String
  EsActivo : Bool
deriving DecidableEq, Repr

/-- Return shape of `seleccionarReservasPorUsuario`: `{"error": ...}` or
`{"reservas": [...], "total": int, "mensaje": str}` — note the success
shape has no `exito` flag. -/
inductive ReservasResult where
  | error (msg : String) (detalle : Option String)
  | ok (reservas : List Reserva) (total : Nat) (mensaje : String)
deriving DecidableEq, Repr

/-- Field extraction for one `<Reservas>` element (lines 142-158); every
field goes through a permissive helper, so decoding is total. -/
def decodeReservaNode (n : XmlElem) : Reserva :=
  { Id := safe_int_loc (findtext "Id" "0" n)
    UsuarioId := safe_int_loc (findtext "UsuarioId" "0" n)
    UsuarioExternoId := safe_int_loc (findtext "UsuarioExternoId" "0" n)
    Estado := findtext "Estado" "" n
    Comentarios := findtext "Comentarios" "" n
    CostoSubtotal := safe_float_loc (findtext "CostoSubtotal" "0" n)
    CostoIVA := safe_float_loc (findtext "CostoIVA" "0" n)
    CostoFinal := safe_float_loc (findtext "CostoFinal" "0" n)
    MinutosRetencion := safe_int_loc (findtext "MinutosRetencion" "0" n)
    ExpiraEn := safe_int_loc (findtext "ExpiraEn" "0" n)
    EsBloqueada := pyLower (findtext "EsBloqueada" "false" n) = "true"
    TokenSesion := findtext "TokenSesion" "" n
    FechaRegistro := findtext "FechaRegistro" "" n
    UltimaFechaCambio := findtext "UltimaFechaCambio" "" n
    EsActivo := pyLower (findtext "EsActivo" "false" n) = "true" }

/-- The SOAP body f-string of `seleccionarReservasPorUsuario`
(lines 97-106). -/
def seleccionarReservasPorUsuario_body (usuario_id : Int) : String :=
  "<?xml version=\"1.0\" encoding=\"utf-8\"?>\n" ++
  "        <soapenv:Envelope xmlns:soapenv=\"http://schemas.xmlsoap.org/soap/envelope/\"\n" ++
  "                          xmlns:tem=\"http://tempuri.org/\">\n" ++
  "           <soapenv:Header/>\n" ++
  "           <soapenv:Body>\n" ++
  "              <tem:seleccionarReservasPorUsuario>\n" ++
  "                 <tem:usuarioId>" ++ toString usuario_id ++ "</tem:usuarioId>\n" ++
  "              </tem:seleccionarReservasPorUsuario>\n" ++
  "           </soapenv:Body>\n" ++
  "        </soapenv:Envelope>"

def seleccionarReservasPorUsuario_request (usuario_id : Int) : HttpRequest :=
  { url := SOAP_URL
    contentType := "text/xml; charset=utf-8"
    soapAction := "http://tempuri.org/seleccionarReservasPorUsuario"
    body := seleccionarReservasPorUsuario_body usuario_id
    timeout := 30 }

/-- `seleccionarReservasPorUsuario` performs no validation of its id
argument (lines 56-116): the POST is issued for every integer. -/
def seleccionarReservasPorUsuario_prepare (usuario_id : Int) :
    Except ReservasResult HttpRequest :=
  .ok (seleccionarReservasPorUsuario_request usuario_id)

/-- `wsReservas.seleccionarReservasPorUsuario` (lines 56-170). -/
def seleccionarReservasPorUsuario (usuario_id : Int) (outcome : HttpOutcome) : ReservasResult :=
  match seleccionarReservasPorUsuario_prepare usuario_id with
  | .error e => e
  | .ok _ =>
    match outcome with
    | .transportError m => .error m none
    | .response r =>
      if r.status ≠ 200 then
        .error ("HTTP " ++ toString r.status) (some r.text)
      else
        match r.xml with
        | .error m => .error m none
        | .ok root =>
          match findDesc "seleccionarReservasPorUsuarioResult" root with
          | none => .ok [] 0 "No se encontraron reservas."
          | some resNode =>
            let reservas := (findChildren "Reservas" resNode).map decodeReservaNode
            .ok reservas reservas.length
              ("Se encontraron " ++ toString reservas.length ++ " reservas del usuario.")

/-- The `bool_str` helper defined inside `insertarReserva`
(lines 609-610). -/
def bool_str (valor : Bool) : String :=
  if valor then "true" else "false"

end wsReservas

namespace wsPagos

/-- `wsPagos._bool_str` (lines 26-27): `"true" if bool(v) else "false"`
(`bool` on a Python `bool` is the identity). -/
def _bool_str (v : Bool) : String :=
  if v then "true" else "false"

end wsPagos

namespace wsUsuarios

def SOAP_URL : String :=
  "https://realdecuenca-btccaacvcpgyadhb.canadacentral-01.azurewebsites.net/WS_GestionUsuarios.asmx"

/-- Return shape of `eliminarUsuario`: `{"error": ..., "detalle"?: ...}`
or `{"eliminado": bool, "mensaje": str}`. -/
inductive DelResult where
  | error (msg : String) (detalle : Option String)
  | ok (eliminado : Bool) (mensaje : String)
deriving DecidableEq, Repr

/-- The SOAP body f-string of `eliminarUsuario` (lines 140-149). -/
def eliminarUsuario_body (usuario_id : Int) : String :=
  "<?xml version=\"1.0\" encoding=\"utf-8\"?>\n" ++
  "        <soap:Envelope xmlns:xsi=\"http://www.w3.org/2001/XMLSchema-instance\"\n" ++
  "                       xmlns:xsd=\"http://www.w3.org/2001/XMLSchema\"\n" ++
  "                       xmlns:soap=\"http://schemas.xmlsoap.org/soap/envelope/\">\n" ++
  "          <soap:Body>\n" ++
  "            <eliminarUsuario xmlns=\"http://tempuri.org/\">\n" ++
  "              <id>" ++ toString usuario_id ++ "</id>\n" ++
  "            </eliminarUsuario>\n" ++
  "          </soap:Body>\n" ++
  "        </soap:Envelope>"

def eliminarUsuario_request (usuario_id : Int) : HttpRequest :=
  { url := SOAP_URL
    contentType := "text/xml; charset=utf-8"
    soapAction := "http://tempuri.org/eliminarUsuario"
    body := eliminarUsuario_body usuario_id
    timeout := 30 }

/-- `eliminarUsuario` validates nothing before the POST (lines 124-152). -/
def eliminarUsuario_prepare (usuario_id : Int) : Except DelResult HttpRequest :=
  .ok (eliminarUsuario_request usuario_id)

/-- `wsUsuarios.eliminarUsuario` (lines 124-192): note that a 200 response
without the result node yields an error-keyed failure value, not a
"not found" outcome. -/
def eliminarUsuario (usuario_id : Int) (outcome : HttpOutcome) : DelResult :=
  match eliminarUsuario_prepare usuario_id with
  | .error e => e
  | .ok _ =>
    match outcome with
    | .transportError m => .error m none
    | .response r =>
      if r.status ≠ 200 then
        .error ("HTTP " ++ toString r.status) (some r.text)
      else
        match r.xml with
        | .error m => .error m none
        | .ok root =>
          match findDesc "eliminarUsuarioResult" root with
          | none => .error "Respuesta SOAP inválida o sin nodo eliminarUsuarioResult." none
          | some node =>
            match node.text with
            | none => .error noneStripMsg none
            | some t =>
              if pyLower (pyStrip t) = "true" then
                .ok true "Usuario desactivado correctamente"
              else
                .ok false "No se pudo desactivar el usuario"

end wsUsuarios

namespace wsTipoAlimentacion

def SOAP_URL_ALIMENTACION : String :=
  "https://realdecuenca-btccaacvcpgyadhb.canadacentral-01.azurewebsites.net/WS_GestionTipoAlimentacion.asmx"

/-- A `tipoAlimentacion` dict as built by the read operations of
`wsTipoAlimentacion.py`: each field stores `element.text` verbatim
(`None` when the element is absent or empty). -/
structure TipoAlim where
  id : Option String
  nombre : Option String
  fechaRegistro : Option String
  ultimaFechaCambio : Option String
  esActivo : Option String
deriving DecidableEq, Repr

/-- Field extraction shared by `seleccionarInactivos` (lines 482-489),
`seleccionarPorId` (lines 566-572) and `seleccionarPorNombre`
(lines 648-654). -/
def decodeTipoNode (n : XmlElem) : TipoAlim :=
  { id := (findChild "Id" n).bind XmlElem.text
    nombre := (findChild "Nombre" n).bind XmlElem.text
    fechaRegistro := (findChild "FechaRegistro" n).bind XmlElem.text
    ultimaFechaCambio := (findChild "UltimaFechaCambio" n).bind XmlElem.text
    esActivo := (findChild "EsActivo" n).bind XmlElem.text }

/-- The static SOAP body of `seleccionarInactivos` (lines 447-454). -/
def seleccionarInactivos_body : String :=
  "<?xml version=\"1.0\" encoding=\"utf-8\"?>\n" ++
  "        <soap:Envelope xmlns:xsi=\"http://www.w3.org/2001/XMLSchema-instance\"\n" ++
  "                       xmlns:xsd=\"http://www.w3.org/2001/XMLSchema\"\n" ++
  "                       xmlns:soap=\"http://schemas.xmlsoap.org/soap/envelope/\">\n" ++
  "          <soap:Body>\n" ++
  "            <seleccionarInactivos xmlns=\"http://tempuri.org/\" />\n" ++
  "          </soap:Body>\n" ++
  "        </soap:Envelope>"

/-- The POST of `seleccionarInactivos` (line 459): `timeout=15`, unlike
the 30-second timeout used elsewhere in the repository. -/
def seleccionarInactivos_request : HttpRequest :=
  { url := SOAP_URL_ALIMENTACION
    contentType := "text/xml; charset=utf-8"
    soapAction := "http://tempuri.org/seleccionarInactivos"
    body := seleccionarInactivos_body
    timeout := 15 }

/-- `wsTipoAlimentacion.seleccionarInactivos` (lines 428-500): a non-200
status, a transport failure and an XML parse failure all collapse to the
empty list — no status, body, cause or failure marker survives. -/
def seleccionarInactivos (outcome : HttpOutcome) : List TipoAlim :=
  match outcome with
  | .transportError _ => []
  | .response r =>
    if r.status ≠ 200 then []
    else
      match r.xml with
      | .error _ => []
      | .ok root => (findAllDesc "TipoAlimentacion" root).map decodeTipoNode

/-- The SOAP body f-string of `seleccionarPorId` (lines 526-535). -/
def seleccionarPorId_body (id : Int) : String :=
  "<?xml version=\"1.0\" encoding=\"utf-8\"?>\n" ++
  "        <soap:Envelope xmlns:xsi=\"http://www.w3.org/2001/XMLSchema-instance\"\n" ++
  "                       xmlns:xsd=\"http://www.w3.org/2001/XMLSchema\"\n" ++
  "                       xmlns:soap=\"http://schemas.xmlsoap.org/soap/envelope/\">\n" ++
  "          <soap:Body>\n" ++
  "            <seleccionarPorId xmlns=\"http://tempuri.org/\">\n" ++
  "              <id>" ++ toString id ++ "</id>\n" ++
  "            </seleccionarPorId>\n" ++
  "          </soap:Body>\n" ++
  "        </soap:Envelope>"

/-- The POST of `seleccionarPorId` (line 539): also `timeout=15`, and no
validation of `id` precedes it. -/
def seleccionarPorId_request (id : Int) : HttpRequest :=
  { url := SOAP_URL_ALIMENTACION
    contentType := "text/xml; charset=utf-8"
    soapAction := "http://tempuri.org/seleccionarPorId"
    body := seleccionarPorId_body id
    timeout := 15 }

def seleccionarPorId_prepare (id : Int) : Except (Option TipoAlim) HttpRequest :=
  .ok (seleccionarPorId_request id)

/-- `wsTipoAlimentacion.seleccionarPorId` (lines 504-583): every failure
(non-200, transport, parse) and the not-found case all return `None`. -/
def seleccionarPorId (id : Int) (outcome : HttpOutcome) : Option TipoAlim :=
  match seleccionarPorId_prepare id with
  | .error e => e
  | .ok _ =>
    match outcome with
    | .transportError _ => none
    | .response r =>
      if r.status ≠ 200 then none
      else
        match r.xml with
        | .error _ => none
        | .ok root => (findDesc "seleccionarPorIdResult" root).map decodeTipoNode

/-- The SOAP body f-string of `seleccionarPorNombre` (lines 608-617). -/
def seleccionarPorNombre_body (nombre : String) : String :=
  "<?xml version=\"1.0\" encoding=\"utf-8\"?>\n" ++
  "        <soap:Envelope xmlns:xsi=\"http://www.w3.org/2001/XMLSchema-instance\"\n" ++
  "                       xmlns:xsd=\"http://www.w3.org/2001/XMLSchema\"\n" ++
  "                       xmlns:soap=\"http://schemas.xmlsoap.org/soap/envelope/\">\n" ++
  "          <soap:Body>\n" ++
  "            <seleccionarPorNombre xmlns=\"http://tempuri.org/\">\n" ++
  "              <nombre>" ++ nombre ++ "</nombre>\n" ++
  "            </seleccionarPorNombre>\n" ++
  "          </soap:Body>\n" ++
  "        </soap:Envelope>"

/-- The POST of `seleccionarPorNombre` (line 623): `timeout=15`. -/
def seleccionarPorNombre_request (nombre : String) : HttpRequest :=
  { url := SOAP_URL_ALIMENTACION
    contentType := "text/xml; charset=utf-8"
    soapAction := "http://tempuri.org/seleccionarPorNombre"
    body := seleccionarPorNombre_body nombre
    timeout := 15 }

/-- `wsTipoAlimentacion.seleccionarPorNombre` (lines 587-665). -/
def seleccionarPorNombre (nombre : String) (outcome : HttpOutcome) : Option TipoAlim :=
  match outcome with
  | .transportError _ => none
  | .response r =>
    if r.status ≠ 200 then none
    else
      match r.xml with
      | .error _ => none
      | .ok root => (findDesc "seleccionarPorNombreResult" root).map decodeTipoNode

end wsTipoAlimentacion

namespace wsEspXRes

def SOAP_URL : String :=
  "https://realdecuenca-btccaacvcpgyadhb.canadacentral-01.azurewebsites.net/WS_GestionResXEsp.asmx"

/-- Return shape of `espacioDisponible`: `{"error": ..., "detalle"?: ...}`
or `{"exito": bool, "disponible": bool | None, "mensaje": str}`. -/
inductive DispResult where
  | error (msg : String) (detalle : Option String)
  | ok (exito : Bool) (disponible : Option Bool) (mensaje : String)
deriving DecidableEq, Repr

/-- The SOAP body f-string of `espacioDisponible` (lines 783-795). -/
def espacioDisponible_body (espacioId : Int) (fechaInicio fechaFin : String) : String :=
  "<?xml version=\"1.0\" encoding=\"utf-8\"?>\n" ++
  "        <soap:Envelope xmlns:xsi=\"http://www.w3.org/2001/XMLSchema-instance\"\n" ++
  "                       xmlns:xsd=\"http://www.w3.org/2001/XMLSchema\"\n" ++
  "                       xmlns:soap=\"http://schemas.xmlsoap.org/soap/envelope/\">\n" ++
  "          <soap:Body>\n" ++
  "            <espacioDisponible xmlns=\"http://tempuri.org/\">\n" ++
  "              <espacioId>" ++ toString espacioId ++ "</espacioId>\n" ++
  "              <fechaInicio>" ++ fechaInicio ++ "</fechaInicio>\n" ++
  "              <fechaFin>" ++ fechaFin ++ "</fechaFin>\n" ++
  "            </espacioDisponible>\n" ++
  "          </soap:Body>\n" ++
  "        </soap:Envelope>"

def espacioDisponible_request (espacioId : Int) (fechaInicio fechaFin : String) : HttpRequest :=
  { url := SOAP_URL
    contentType := "text/xml; charset=utf-8"
    soapAction := "http://tempuri.org/espacioDisponible"
    body := espacioDisponible_body espacioId fechaInicio fechaFin
    timeout := 30 }

/-- Validation phase of `espacioDisponible` (lines 775-778): a
non-positive id or a blank date is rejected before any request is built. -/
def espacioDisponible_prepare (espacioId : Int) (fechaInicio fechaFin : String) :
    Except DispResult HttpRequest :=
  if espacioId ≤ 0 then
    .error (.error ("Debe proporcionar un " ++ apos ++ "espacioId" ++ apos ++ " válido (entero mayor que 0).") none)
  else if fechaInicio = "" ∨ fechaFin = "" then
    .error (.error ("Debe proporcionar " ++ apos ++ "fechaInicio" ++ apos ++ " y " ++ apos ++ "fechaFin" ++ apos ++ " válidas.") none)
  else
    .ok (espacioDisponible_request espacioId fechaInicio fechaFin)

/-- `wsEspXRes.espacioDisponible` (lines 749-835).  The response is not
XML-parsed at all: the result is cut out of the raw body text with
`str.split`, exactly as in the source (lines 813-820). -/
def espacioDisponible (espacioId : Int) (fechaInicio fechaFin : String)
    (outcome : HttpOutcome) : DispResult :=
  match espacioDisponible_prepare espacioId fechaInicio fechaFin with
  | .error e => e
  | .ok _ =>
    match outcome with
    | .transportError m => .error m none
    | .response r =>
      if r.status ≠ 200 then
        .error ("HTTP " ++ toString r.status) (some r.text)
      else if pyContains "<espacioDisponibleResult>" r.text = false then
        .ok false none "Respuesta inválida del servicio."
      else
        let seg := (pySplit r.text "<espacioDisponibleResult>").getD 1 ""
        let front := (pySplit seg "</espacioDisponibleResult>").getD 0 ""
        let disponible := pyLower (pyStrip front) = "true"
        .ok true (some disponible)
          (if disponible then "El espacio está disponible para las fechas indicadas."
           else "El espacio NO está disponible en el rango de fechas especificado.")

end wsEspXRes

namespace wsIntegracionDetalleServicios

/-- The `safe_bool` defined locally inside `cotizarReserva` (lines
536-537) and inside the paginated space search (lines 681-682) of
`wsIntegracionDetalleServicios.py`:
`str(value).strip().lower() in ("true", "1", "yes")` — unlike every other
boolean decoder of the repository, it also accepts `"1"` and `"yes"`. -/
def safe_bool (value : String) : Bool :=
  pyLower (pyStrip value) ∈ (["true", "1", "yes"] : List String)

/-- The node-taking `get_text` defined locally at lines 684-688: the
stripped text of the named child, or the default when the child is absent
or its text is `None` or empty. -/
def get_text (node : XmlElem) (tag dflt : String) : String :=
  match findChild tag node with
  | some el =>
      match el.text with
      | some t => if t = "" then dflt else pyStrip t
      | none => dflt
  | none => dflt

/-- The `findtext`-based `get_text` defined locally at lines 539-541
(closed over the result node): same strip-or-default behavior. -/
def get_text_ft (n : XmlElem) (tag dflt : String) : String :=
  let text := findtext tag dflt n
  if text = "" then dflt else pyStrip text

/-- The `EsActivo` field decode of the paginated space search (line 711):
`safe_bool(get_text(e, "EsActivo"))`. -/
def decodeEsActivo (e : XmlElem) : Bool :=
  safe_bool (get_text e "EsActivo" "")

/-- The `BreakfastIncluded` field decode of `cotizarReserva` (line 557):
`safe_bool(get_text("BreakfastIncluded"))`. -/
def decodeBreakfastIncluded (n : XmlElem) : Bool :=
  safe_bool (get_text_ft n "BreakfastIncluded" "")

end wsIntegracionDetalleServicios

namespace wsUsuarios

/-- The `get_text` defined locally inside `iniciarSesion`
(`wsUsuarios.py` lines 260-262, the same pattern recurs at line 518):
`text.strip() if text else default` over `findtext` — it strips the
surrounding whitespace of a non-empty text. -/
def get_text (n : XmlElem) (tag dflt : String) : String :=
  let text := findtext tag dflt n
  if text = "" then dflt else pyStrip text

/-- The `EsActivo` field decode of `iniciarSesion` (line 272):
`get_text("EsActivo", "false").lower() == "true"` — a field boolean that
strips before comparing, because the text passes through `get_text`. -/
def decodeEsActivo (n : XmlElem) : Bool :=
  pyLower (get_text n "EsActivo" "false") = "true"

end wsUsuarios

/-! ## Concrete response fixtures used by the counterexamples and
witnesses below. -/

/-- A SOAP envelope whose `Body` is empty: no result node at all. -/
def envEmpty : XmlElem :=
  xmlE "Envelope" none [xmlE "Body" none []]

/-- A SOAP envelope whose `Body` holds one result element with the given
tag, text and children. -/
def envWith (tag : String) (text : Option String) (children : List XmlElem) : XmlElem :=
  xmlE "Envelope" none [xmlE "Body" none [xmlE tag text children]]

/-- A `<Hotel>` element with the five leaf fields the adapters read. -/
def hotelNode (idTxt nombreTxt frTxt ufcTxt eaTxt : String) : XmlElem :=
  xmlE "Hotel" none
    [ xmlE "Id" (some idTxt) []
    , xmlE "Nombre" (some nombreTxt) []
    , xmlE "FechaRegistro" (some frTxt) []
    , xmlE "UltimaFechaCambio" (some ufcTxt) []
    , xmlE "EsActivo" (some eaTxt) [] ]

/-! ## C1: non-200 responses -/

/-- C1 counterexample.  `wsTipoAlimentacion.seleccionarInactivos` on an
HTTP 500 response with body `"boom"` returns the bare empty list — a value
that carries neither the status code nor the raw body, and is identical to
the value returned for a successful 200 response with zero records.  The
claim that *every* adapter operation returns a structured failure carrying
the status and body is therefore false. -/
theorem C1_counterexample :
    wsTipoAlimentacion.seleccionarInactivos
        (.response ⟨500, "boom", .error "syntax error: line 1, column 0"⟩) = []
    ∧ wsTipoAlimentacion.seleccionarInactivos
        (.response ⟨200, "<ok/>", .ok envEmpty⟩) = [] := by
  constructor
  · rfl
  · rfl

/-- C1 (amended).  For every response with a non-200 status — whatever the
status, body and XML parse outcome — `wsHotel.actualizarHotel` (on inputs
that pass validation), `wsReservas.seleccionarReservasPorUsuario` and
`wsUsuarios.eliminarUsuario` return the error value carrying
`"HTTP {status}"` and the raw body, independent of the parse (so the body
is never parsed); `wsTipoAlimentacion.seleccionarInactivos` instead
returns the empty list, dropping the status and body. -/
theorem C1_amended (r : HttpResponse) (hst : r.status ≠ 200) :
    (∀ (id : Int) (nombre : String) (fr ufc : Option String) (ea : Option Bool),
        0 < id → nombre ≠ "" →
        wsHotel.actualizarHotel ⟨some id, some nombre, fr, ufc, ea⟩ (.response r)
          = .error ("HTTP " ++ toString r.status) (some r.text))
    ∧ (∀ uid : Int,
        wsReservas.seleccionarReservasPorUsuario uid (.response r)
          = .error ("HTTP " ++ toString r.status) (some r.text))
    ∧ (∀ uid : Int,
        wsUsuarios.eliminarUsuario uid (.response r)
          = .error ("HTTP " ++ toString r.status) (some r.text))
    ∧ wsTipoAlimentacion.seleccionarInactivos (.response r) = [] := by
  refine ⟨?_, ?_, ?_, ?_⟩
  · intro id nombre fr ufc ea hid hn
    have hid' : ¬ id ≤ 0 := by omega
    simp [wsHotel.actualizarHotel, hid', hn, hst]
  · intro uid
    simp [wsReservas.seleccionarReservasPorUsuario,
      wsReservas.seleccionarReservasPorUsuario_prepare, hst]
  · intro uid
    simp [wsUsuarios.eliminarUsuario, wsUsuarios.eliminarUsuario_prepare, hst]
  · simp [wsTipoAlimentacion.seleccionarInactivos, hst]

/-- C1 witness: the amended theorem applied to a concrete 404 response. -/
theorem C1_witness :
    wsHotel.actualizarHotel ⟨some 5, some "Test", none, none, none⟩
        (.response ⟨404, "not found", .error "syntax error: line 1, column 0"⟩)
      = .error "HTTP 404" (some "not found") := by
  have h := C1_amended ⟨404, "not found", .error "syntax error: line 1, column 0"⟩ (by decide)
  exact h.1 5 "Test" none none none (by decide) (by decide)

/-! ## C2: transport failures -/

/-- C2 counterexample.  A transport failure (`RequestException`) in
`wsTipoAlimentacion.seleccionarInactivos` is swallowed into the default
empty list (source lines 494-496): the result is identical to a successful
200 response with zero records, so the underlying cause is not carried and
the failure is not distinguishable from success.  The claim that *every*
adapter operation surfaces transport failures is therefore false. -/
theorem C2_counterexample :
    wsTipoAlimentacion.seleccionarInactivos
        (.transportError "HTTPSConnectionPool: Max retries exceeded") = []
    ∧ wsTipoAlimentacion.seleccionarInactivos
        (.response ⟨200, "<ok/>", .ok envEmpty⟩)
      = wsTipoAlimentacion.seleccionarInactivos
        (.transportError "HTTPSConnectionPool: Max retries exceeded") := by
  constructor
  · rfl
  · rfl

/-- C2 (amended).  For every transport-failure message `m`,
`wsHotel.actualizarHotel` (on validated input),
`wsReservas.seleccionarReservasPorUsuario` and `wsUsuarios.eliminarUsuario`
return the error value carrying `m` (`str(ex)`) — a failure distinguishable
from every success shape; `wsTipoAlimentacion.seleccionarInactivos` and
`wsTipoAlimentacion.seleccionarPorId` instead swallow the failure into
their default results (`[]` and `None`). -/
theorem C2_amended (m : String) :
    (∀ (id : Int) (nombre : String) (fr ufc : Option String) (ea : Option Bool),
        0 < id → nombre ≠ "" →
        wsHotel.actualizarHotel ⟨some id, some nombre, fr, ufc, ea⟩ (.transportError m)
          = .error m none)
    ∧ (∀ uid : Int,
        wsReservas.seleccionarReservasPorUsuario uid (.transportError m) = .error m none)
    ∧ (∀ uid : Int,
        wsUsuarios.eliminarUsuario uid (.transportError m) = .error m none)
    ∧ wsTipoAlimentacion.seleccionarInactivos (.transportError m) = []
    ∧ (∀ id : Int,
        wsTipoAlimentacion.seleccionarPorId id (.transportError m) = none) := by
  refine ⟨?_, fun _ => rfl, fun _ => rfl, rfl, fun _ => rfl⟩
  intro id nombre fr ufc ea hid hn
  have hid' : ¬ id ≤ 0 := by omega
  simp [wsHotel.actualizarHotel, hid', hn]

/-- C2 witness: the amended theorem applied to a concrete timeout
message. -/
theorem C2_witness :
    wsHotel.actualizarHotel ⟨some 5, some "Test", none, none, none⟩
        (.transportError "HTTPSConnectionPool(host=...): Read timed out. (read timeout=30)")
      = .error "HTTPSConnectionPool(host=...): Read timed out. (read timeout=30)" none := by
  have h := C2_amended "HTTPSConnectionPool(host=...): Read timed out. (read timeout=30)"
  exact h.1 5 "Test" none none none (by decide) (by decide)

/-! ## C3: no exception propagation, failure markers -/

/-- C3 counterexample.  A 200 response with malformed XML makes
`wsTipoAlimentacion.seleccionarInactivos` return the bare empty list
(source lines 474-478): the caller receives a value with no failure marker
at all, identical to a genuine empty success, so the "callers inspect a
failure marker" part of the claim is false for this operation. -/
theorem C3_counterexample :
    wsTipoAlimentacion.seleccionarInactivos
        (.response ⟨200, "<broken", .error "unclosed token: line 1, column 0"⟩) = []
    ∧ wsTipoAlimentacion.seleccionarInactivos
        (.response ⟨200, "<ok/>", .ok envEmpty⟩)
      = wsTipoAlimentacion.seleccionarInactivos
        (.response ⟨200, "<broken", .error "unclosed token: line 1, column 0"⟩) := by
  constructor
  · rfl
  · rfl

/-- C3 (amended).  Every embedded adapter operation is a total function of
the HTTP outcome — all failures, including a malformed-XML 200 response,
are caught and returned as an ordinary value rather than raised.  For the
error-dict operations the returned value marks the failure and carries the
message of the parser; `wsTipoAlimentacion.seleccionarInactivos` returns the
markerless default `[]` instead. -/
theorem C3_amended (m text : String) :
    (∀ uid : Int,
        wsUsuarios.eliminarUsuario uid (.response ⟨200, text, .error m⟩) = .error m none)
    ∧ (∀ nombre : String, nombre ≠ "" →
        wsHotel.buscarHotelPorNombre nombre (.response ⟨200, text, .error m⟩) = .error m none)
    ∧ (∀ uid : Int,
        wsReservas.seleccionarReservasPorUsuario uid (.response ⟨200, text, .error m⟩)
          = .error m none)
    ∧ wsTipoAlimentacion.seleccionarInactivos (.response ⟨200, text, .error m⟩) = [] := by
  refine ⟨fun _ => rfl, ?_, fun _ => rfl, rfl⟩
  intro nombre hn
  simp [wsHotel.buscarHotelPorNombre, hn]

/-- C3 witness: the amended theorem applied to a concrete parse-failure
response. -/
theorem C3_witness :
    wsHotel.buscarHotelPorNombre "Test"
        (.response ⟨200, "<broken", .error "unclosed token: line 1, column 0"⟩)
      = .error "unclosed token: line 1, column 0" none := by
  have h := C3_amended "unclosed token: line 1, column 0" "<broken"
  exact h.2.1 "Test" (by decide)

/-! ## C4: list decoding -/

/-- Specification-side description of a fully decodable record list: the
decoding of every `<Hotel>` child in document order, failing if any single
record fails (used to state C4). -/
def decodeHotelList : List XmlElem → Except String (List wsHotel.Hotel)
  | [] => .ok []
  | n :: ns => do
      let h ← wsHotel.decodeHotelNode n
      let rest ← decodeHotelList ns
      return h :: rest

theorem decodeHotelList_filterMap (ns : List XmlElem) :
    ∀ hs, decodeHotelList ns = .ok hs →
      ns.filterMap (fun n => (wsHotel.decodeHotelNode n).toOption) = hs := by
  induction ns with
  | nil =>
    intro hs h
    simp only [decodeHotelList] at h
    cases h
    simp
  | cons n ns ih =>
    intro hs h
    simp only [decodeHotelList, bind, Except.bind] at h
    cases h1 : wsHotel.decodeHotelNode n with
    | error e => rw [h1] at h; cases h
    | ok b =>
      rw [h1] at h
      cases h2 : decodeHotelList ns with
      | error e => rw [h2] at h; cases h
      | ok rest =>
        rw [h2] at h
        cases h
        simp only [List.filterMap_cons, h1, Except.toOption]
        exact congrArg (List.cons b) (ih rest h2)

theorem decodeHotelList_length (ns : List XmlElem) :
    ∀ hs, decodeHotelList ns = .ok hs → hs.length = ns.length := by
  induction ns with
  | nil =>
    intro hs h
    simp only [decodeHotelList] at h
    cases h
    rfl
  | cons n ns ih =>
    intro hs h
    simp only [decodeHotelList, bind, Except.bind] at h
    cases h1 : wsHotel.decodeHotelNode n with
    | error e => rw [h1] at h; cases h
    | ok b =>
      rw [h1] at h
      cases h2 : decodeHotelList ns with
      | error e => rw [h2] at h; cases h
      | ok rest =>
        rw [h2] at h
        cases h
        simp [ih rest h2]

theorem buscarLoop_of_decode (ns : List XmlElem) :
    ∀ hs, decodeHotelList ns = .ok hs →
      wsHotel.buscarLoop ns = .ok (hs.filter fun x => 0 < x.Id) := by
  induction ns with
  | nil =>
    intro hs h
    simp only [decodeHotelList] at h
    cases h
    rfl
  | cons n ns ih =>
    intro hs h
    simp only [decodeHotelList, bind, Except.bind] at h
    cases h1 : wsHotel.decodeHotelNode n with
    | error e => rw [h1] at h; cases h
    | ok b =>
      rw [h1] at h
      cases h2 : decodeHotelList ns with
      | error e => rw [h2] at h; cases h
      | ok rest =>
        rw [h2] at h
        cases h
        simp only [wsHotel.buscarLoop, bind, Except.bind, h1, ih rest h2]
        by_cases hb : 0 < b.Id <;> simp [List.filter_cons, hb, pure, Except.pure]

/-- C4 counterexample.  A well-formed 200 response whose result node
contains one `<Hotel>` record with `Id` text `"0"` makes
`wsHotel.buscarHotelPorNombre` return an empty list: the record is
dropped by the `if hotel["Id"] > 0` filter of the adapter (source lines
212-213), so the claim that no record is filtered by `Id` is false. -/
theorem C4_counterexample :
    wsHotel.buscarHotelPorNombre "Test"
        (.response ⟨200, "<soap/>", .ok (envWith "buscarHotelPorNombreResult" none
          [hotelNode "0" "Fantasma" "2025-01-01" "2025-01-02" "true"])⟩)
      = .ok true [] "No se encontraron hoteles con ese nombre." := rfl

/-- C4 (amended).  On a well-formed 200 response whose result node holds N
decodable `<Hotel>` records, `wsHotel.seleccionarHoteles` returns exactly
the N decoded records in document order — in particular no filtering by
`EsActivo` — while `wsHotel.buscarHotelPorNombre` returns only the decoded
records whose `Id` is positive, dropping the others. -/
theorem C4_amended (r r2 : HttpResponse) (root root2 resNode resNode2 : XmlElem)
    (hs hs2 : List wsHotel.Hotel) (nombre : String)
    (h200 : r.status = 200) (hx : r.xml = .ok root)
    (hf : findDesc "seleccionarHotelesResult" root = some resNode)
    (hd : decodeHotelList (findChildren "Hotel" resNode) = .ok hs)
    (hnom : nombre ≠ "") (h200b : r2.status = 200) (hxb : r2.xml = .ok root2)
    (hfb : findDesc "buscarHotelPorNombreResult" root2 = some resNode2)
    (hdb : decodeHotelList (findChildren "Hotel" resNode2) = .ok hs2) :
    (∃ msg, wsHotel.seleccionarHoteles (.response r) = .ok true hs msg)
    ∧ hs.length = (findChildren "Hotel" resNode).length
    ∧ (∃ msg, wsHotel.buscarHotelPorNombre nombre (.response r2)
        = .ok true (hs2.filter fun x => 0 < x.Id) msg) := by
  refine ⟨?_, decodeHotelList_length _ _ hd, ?_⟩
  · by_cases hhs : hs = []
    · subst hhs
      exact ⟨"No hay hoteles registrados o activos.", by
        simp [wsHotel.seleccionarHoteles, h200, hx, hf,
          decodeHotelList_filterMap _ _ hd]⟩
    · exact ⟨"Hoteles obtenidos correctamente.", by
        simp [wsHotel.seleccionarHoteles, h200, hx, hf,
          decodeHotelList_filterMap _ _ hd, hhs]⟩
  · by_cases hhs : hs2.filter (fun x => 0 < x.Id) = []
    · refine ⟨"No se encontraron hoteles con ese nombre.", ?_⟩
      simp [wsHotel.buscarHotelPorNombre, hnom, h200b, hxb, hfb,
        buscarLoop_of_decode _ _ hdb, hhs]
    · refine ⟨"Hoteles encontrados correctamente.", ?_⟩
      simp [wsHotel.buscarHotelPorNombre, hnom, h200b, hxb, hfb,
        buscarLoop_of_decode _ _ hdb, hhs]

/-- C4 witness: the amended theorem applied to the scenario given in the
spec — a
stub returning three `<Hotel>` nodes with `EsActivo` alternating
true/false — and, for the search operation, to a response containing one
positive-`Id` record and one zero-`Id` record. -/
theorem C4_witness :
    (∃ msg, wsHotel.seleccionarHoteles
        (.response ⟨200, "t", .ok (envWith "seleccionarHotelesResult" none
          [hotelNode "1" "A" "" "" "true", hotelNode "2" "B" "" "" "false",
           hotelNode "3" "C" "" "" "true"])⟩)
      = .ok true
          [⟨1, "A", "", "", true⟩, ⟨2, "B", "", "", false⟩, ⟨3, "C", "", "", true⟩] msg)
    ∧ ([⟨1, "A", "", "", true⟩, ⟨2, "B", "", "", false⟩,
        (⟨3, "C", "", "", true⟩ : wsHotel.Hotel)] : List wsHotel.Hotel).length
      = (findChildren "Hotel" (xmlE "seleccionarHotelesResult" none
          [hotelNode "1" "A" "" "" "true", hotelNode "2" "B" "" "" "false",
           hotelNode "3" "C" "" "" "true"])).length
    ∧ (∃ msg, wsHotel.buscarHotelPorNombre "Test"
        (.response ⟨200, "t", .ok (envWith "buscarHotelPorNombreResult" none
          [hotelNode "4" "D" "" "" "true", hotelNode "0" "E" "" "" "false"])⟩)
      = .ok true (([⟨4, "D", "", "", true⟩, ⟨0, "E", "", "", false⟩]
          : List wsHotel.Hotel).filter fun x => 0 < x.Id) msg) := by
  exact C4_amended
    ⟨200, "t", .ok (envWith "seleccionarHotelesResult" none
      [hotelNode "1" "A" "" "" "true", hotelNode "2" "B" "" "" "false",
       hotelNode "3" "C" "" "" "true"])⟩
    ⟨200, "t", .ok (envWith "buscarHotelPorNombreResult" none
      [hotelNode "4" "D" "" "" "true", hotelNode "0" "E" "" "" "false"])⟩
    (envWith "seleccionarHotelesResult" none
      [hotelNode "1" "A" "" "" "true", hotelNode "2" "B" "" "" "false",
       hotelNode "3" "C" "" "" "true"])
    (envWith "buscarHotelPorNombreResult" none
      [hotelNode "4" "D" "" "" "true", hotelNode "0" "E" "" "" "false"])
    (xmlE "seleccionarHotelesResult" none
      [hotelNode "1" "A" "" "" "true", hotelNode "2" "B" "" "" "false",
       hotelNode "3" "C" "" "" "true"])
    (xmlE "buscarHotelPorNombreResult" none
      [hotelNode "4" "D" "" "" "true", hotelNode "0" "E" "" "" "false"])
    [⟨1, "A", "", "", true⟩, ⟨2, "B", "", "", false⟩, ⟨3, "C", "", "", true⟩]
    [⟨4, "D", "", "", true⟩, ⟨0, "E", "", "", false⟩]
    "Test" rfl rfl rfl rfl (by decide) rfl rfl rfl rfl

/-! ## C5: field extraction defaults -/

/-- C5 counterexample.  A 200 response whose result node holds a
`<Hotel>` record with non-numeric `Id` text `"abc"` makes
`wsHotel.buscarHotelPorNombre` fail the whole call with an error value
carrying the `int()` `ValueError` message (the bare `int()` at source line
206 raises and the outer handler returns `{"error": str(ex)}`) — the field
does not silently become the default `0`, refuting the claim for this
decoder. -/
theorem C5_counterexample :
    wsHotel.buscarHotelPorNombre "Test"
        (.response ⟨200, "b", .ok (envWith "buscarHotelPorNombreResult" none
          [hotelNode "abc" "X" "" "" "true"])⟩)
      = .error ("invalid literal for int() with base 10: " ++ apos ++ "abc" ++ apos)
          none := rfl

/-- C5 (amended).  Fields decoded through the `safe_*` helpers of
`wsReservas.py` are total with the documented defaults: `safe_int` returns
the parsed value on numeric text and `0` on any text `int()` rejects, and
`safe_float` returns `0` on any text `float()` rejects; an absent element
likewise yields the `findtext` default in every decoder (numeric `0`,
string `""`, boolean `false`).  But fields decoded with a bare `int()`
(`wsHotel`) only default when the element is absent: non-numeric or empty
text raises, aborting the call with an error value. -/
theorem C5_amended :
    (∀ s, pyIntParse s = none → wsReservas.safe_int s = 0)
    ∧ (∀ s n, pyIntParse s = some n → wsReservas.safe_int s = n)
    ∧ (∀ s, pyFloatParse s = none → wsReservas.safe_float s = 0)
    ∧ (∀ n : XmlElem, findChild "Id" n = none → findChild "Nombre" n = none →
        findChild "EsActivo" n = none →
        wsHotel.decodeHotelNode n
          = .ok ⟨0, "", findtext "FechaRegistro" "" n, findtext "UltimaFechaCambio" "" n, false⟩)
    ∧ (∀ (tag : String) (txt : Option String),
        wsReservas.decodeReservaNode (xmlE tag txt [])
          = ⟨0, 0, 0, "", "", 0, 0, 0, 0, 0, false, "", "", "", false⟩)
    ∧ (∀ (n c : XmlElem), findChild "Id" n = some c → c.text = some "" →
        wsHotel.decodeHotelNode n = .error (pyIntErrMsg "")) := by
  refine ⟨?_, ?_, ?_, ?_, fun tag txt => rfl, ?_⟩
  · intro s h
    simp [wsReservas.safe_int, h]
  · intro s n h
    simp [wsReservas.safe_int, h]
  · intro s h
    by_cases hb : pyStrip s = "" <;> simp [wsReservas.safe_float, hb, h]
  · intro n hId hN hEA
    have e1 : findtext "Id" "0" n = "0" := by simp [findtext, hId]
    have e2 : findtext "Nombre" "" n = "" := by simp [findtext, hN]
    have e3 : findtext "EsActivo" "false" n = "false" := by simp [findtext, hEA]
    simp [wsHotel.decodeHotelNode, e1, e2, e3, bind, Except.bind, pure, Except.pure,
      show pyIntE "0" = .ok 0 from rfl, show pyLower "false" = "false" from rfl]
  · intro n c hc htext
    have e1 : findtext "Id" "0" n = "" := by simp [findtext, hc, htext]
    simp [wsHotel.decodeHotelNode, e1, bind, Except.bind,
      show pyIntE "" = .error (pyIntErrMsg "") from rfl]

/-- C5 witness: the amended theorem applied to `"abc"` (non-numeric),
`"12"` (numeric), an element with no children, and an element whose `Id`
child has empty text. -/
theorem C5_witness :
    wsReservas.safe_int "abc" = 0
    ∧ wsReservas.safe_int "12" = 12
    ∧ wsReservas.safe_float "x" = 0
    ∧ wsHotel.decodeHotelNode (xmlE "Hotel" none [])
        = .ok ⟨0, "", "", "", false⟩
    ∧ wsReservas.decodeReservaNode (xmlE "Reservas" none [])
        = ⟨0, 0, 0, "", "", 0, 0, 0, 0, 0, false, "", "", "", false⟩
    ∧ wsHotel.decodeHotelNode (xmlE "Hotel" none [xmlE "Id" (some "") []])
        = .error (pyIntErrMsg "") := by
  refine ⟨C5_amended.1 "abc" rfl, C5_amended.2.1 "12" 12 rfl, C5_amended.2.2.1 "x" rfl,
    C5_amended.2.2.2.1 (xmlE "Hotel" none []) rfl rfl rfl,
    C5_amended.2.2.2.2.1 "Reservas" none,
    C5_amended.2.2.2.2.2 (xmlE "Hotel" none [xmlE "Id" (some "") []])
      (xmlE "Id" (some "") []) rfl rfl⟩

/-! ## C6: empty / absent result node -/

/-- C6 counterexample.  `wsUsuarios.eliminarUsuario` on a 200 response
whose body has no `eliminarUsuarioResult` node returns an error-keyed
failure value (source line 178), not an empty collection or "not found"
scalar — refuting the "never a failure value" claim. -/
theorem C6_counterexample :
    wsUsuarios.eliminarUsuario 7 (.response ⟨200, "<e/>", .ok envEmpty⟩)
      = .error "Respuesta SOAP inválida o sin nodo eliminarUsuarioResult." none := rfl

/-- C6 (amended).  On a 200 response whose expected result node is absent,
the cited list operations do return an empty collection —
`seleccionarReservasPorUsuario` as a plain empty success,
`buscarHotelPorNombre` as an empty list flagged `exito := false` — but
some scalar operations (e.g. `wsUsuarios.eliminarUsuario`) return an
error-keyed failure value instead. -/
theorem C6_amended (root : XmlElem) (text nombre : String) (uid usuario_id : Int)
    (hnom : nombre ≠ "") :
    (findDesc "seleccionarReservasPorUsuarioResult" root = none →
      wsReservas.seleccionarReservasPorUsuario uid (.response ⟨200, text, .ok root⟩)
        = .ok [] 0 "No se encontraron reservas.")
    ∧ (findDesc "buscarHotelPorNombreResult" root = none →
      wsHotel.buscarHotelPorNombre nombre (.response ⟨200, text, .ok root⟩)
        = .ok false [] "No se encontraron coincidencias.")
    ∧ (findDesc "eliminarUsuarioResult" root = none →
      wsUsuarios.eliminarUsuario usuario_id (.response ⟨200, text, .ok root⟩)
        = .error "Respuesta SOAP inválida o sin nodo eliminarUsuarioResult." none) := by
  refine ⟨?_, ?_, ?_⟩
  · intro h
    simp [wsReservas.seleccionarReservasPorUsuario,
      wsReservas.seleccionarReservasPorUsuario_prepare, h]
  · intro h
    simp [wsHotel.buscarHotelPorNombre, hnom, h]
  · intro h
    simp [wsUsuarios.eliminarUsuario, wsUsuarios.eliminarUsuario_prepare, h]

/-- C6 witness: the amended theorem applied to the empty-body envelope. -/
theorem C6_witness :
    wsReservas.seleccionarReservasPorUsuario 3 (.response ⟨200, "<e/>", .ok envEmpty⟩)
      = .ok [] 0 "No se encontraron reservas."
    ∧ wsHotel.buscarHotelPorNombre "Test" (.response ⟨200, "<e/>", .ok envEmpty⟩)
      = .ok false [] "No se encontraron coincidencias." := by
  have h := C6_amended envEmpty "<e/>" "Test" 3 3 (by decide)
  exact ⟨h.1 rfl, h.2.1 rfl⟩

/-! ## C7: request serialization -/

set_option maxRecDepth 8000 in
/-- C7 (confirmed).  Request serialization round-trip on
`wsHotel.actualizarHotel`: the request body is the serialization of the
resolved field values, each field value appearing verbatim as the text of
its named element (the integer `Id` as decimal text, `Nombre` unchanged);
the `EsActivo` flag enters the body through `pyBoolStr`
(`str(b).lower()`), and every boolean serializer of the repository
(`pyBoolStr`, `wsReservas.bool_str`, `wsPagos._bool_str`) maps `false` to
the lowercase literal `"false"` and `true` to `"true"`; for the record
`{Id:5, Nombre:"Test", EsActivo:true}` the documented fragments are
substrings of the generated body. -/
theorem C7_serialization (id : Int) (nombre fr ufc esActivo : String)
    (fro ufco : Option String) (eao : Option Bool) (now : String) :
    (wsHotel.actualizarHotel_request id nombre fro ufco eao now).body
      = wsHotel.actualizarHotel_body id nombre (fro.getD now) (ufco.getD now)
          (pyBoolStr (eao.getD true))
    ∧ (∃ p q, wsHotel.actualizarHotel_body id nombre fr ufc esActivo
        = p ++ ("<tem:Id>" ++ toString id ++ "</tem:Id>") ++ q)
    ∧ (∃ p q, wsHotel.actualizarHotel_body id nombre fr ufc esActivo
        = p ++ ("<tem:Nombre>" ++ nombre ++ "</tem:Nombre>") ++ q)
    ∧ (∃ p q, wsHotel.actualizarHotel_body id nombre fr ufc esActivo
        = p ++ ("<tem:EsActivo>" ++ esActivo ++ "</tem:EsActivo>") ++ q)
    ∧ pyBoolStr true = "true" ∧ pyBoolStr false = "false"
    ∧ wsReservas.bool_str false = "false" ∧ wsReservas.bool_str true = "true"
    ∧ wsPagos._bool_str false = "false" ∧ wsPagos._bool_str true = "true"
    ∧ pyContains "<tem:Id>5</tem:Id>"
        (wsHotel.actualizarHotel_body 5 "Test" "2025-01-01" "2025-01-02" "true") = true
    ∧ pyContains "<tem:Nombre>Test</tem:Nombre>"
        (wsHotel.actualizarHotel_body 5 "Test" "2025-01-01" "2025-01-02" "true") = true
    ∧ pyContains "<tem:EsActivo>true</tem:EsActivo>"
        (wsHotel.actualizarHotel_body 5 "Test" "2025-01-01" "2025-01-02" "true") = true := by
  refine ⟨rfl, ?_, ?_, ?_, rfl, rfl, rfl, rfl, rfl, rfl, rfl, rfl, rfl⟩
  · refine ⟨"<?xml version=\"1.0\" encoding=\"utf-8\"?>\n" ++
      "        <soapenv:Envelope xmlns:soapenv=\"http://schemas.xmlsoap.org/soap/envelope/\"\n" ++
      "                          xmlns:tem=\"http://tempuri.org/\">\n" ++
      "          <soapenv:Header/>\n" ++
      "          <soapenv:Body>\n" ++
      "            <tem:actualizarHotel>\n" ++
      "              <tem:hotelEditado>\n" ++
      "                ",
      "\n" ++
      "                " ++ "<tem:Nombre>" ++ nombre ++ "</tem:Nombre>" ++ "\n" ++
      "                " ++ "<tem:FechaRegistro>" ++ fr ++ "</tem:FechaRegistro>" ++ "\n" ++
      "                " ++ "<tem:UltimaFechaCambio>" ++ ufc ++ "</tem:UltimaFechaCambio>" ++ "\n" ++
      "                " ++ "<tem:EsActivo>" ++ esActivo ++ "</tem:EsActivo>" ++ "\n" ++
      "              </tem:hotelEditado>\n" ++
      "            </tem:actualizarHotel>\n" ++
      "          </soapenv:Body>\n" ++
      "        </soapenv:Envelope>", ?_⟩
    simp only [wsHotel.actualizarHotel_body, String.append_assoc]
  · refine ⟨"<?xml version=\"1.0\" encoding=\"utf-8\"?>\n" ++
      "        <soapenv:Envelope xmlns:soapenv=\"http://schemas.xmlsoap.org/soap/envelope/\"\n" ++
      "                          xmlns:tem=\"http://tempuri.org/\">\n" ++
      "          <soapenv:Header/>\n" ++
      "          <soapenv:Body>\n" ++
      "            <tem:actualizarHotel>\n" ++
      "              <tem:hotelEditado>\n" ++
      "                " ++ "<tem:Id>" ++ toString id ++ "</tem:Id>" ++ "\n" ++
      "                ",
      "\n" ++
      "                " ++ "<tem:FechaRegistro>" ++ fr ++ "</tem:FechaRegistro>" ++ "\n" ++
      "                " ++ "<tem:UltimaFechaCambio>" ++ ufc ++ "</tem:UltimaFechaCambio>" ++ "\n" ++
      "                " ++ "<tem:EsActivo>" ++ esActivo ++ "</tem:EsActivo>" ++ "\n" ++
      "              </tem:hotelEditado>\n" ++
      "            </tem:actualizarHotel>\n" ++
      "          </soapenv:Body>\n" ++
      "        </soapenv:Envelope>", ?_⟩
    simp only [wsHotel.actualizarHotel_body, String.append_assoc]
  · refine ⟨"<?xml version=\"1.0\" encoding=\"utf-8\"?>\n" ++
      "        <soapenv:Envelope xmlns:soapenv=\"http://schemas.xmlsoap.org/soap/envelope/\"\n" ++
      "                          xmlns:tem=\"http://tempuri.org/\">\n" ++
      "          <soapenv:Header/>\n" ++
      "          <soapenv:Body>\n" ++
      "            <tem:actualizarHotel>\n" ++
      "              <tem:hotelEditado>\n" ++
      "                " ++ "<tem:Id>" ++ toString id ++ "</tem:Id>" ++ "\n" ++
      "                " ++ "<tem:Nombre>" ++ nombre ++ "</tem:Nombre>" ++ "\n" ++
      "                " ++ "<tem:FechaRegistro>" ++ fr ++ "</tem:FechaRegistro>" ++ "\n" ++
      "                " ++ "<tem:UltimaFechaCambio>" ++ ufc ++ "</tem:UltimaFechaCambio>" ++ "\n" ++
      "                ",
      "\n" ++
      "              </tem:hotelEditado>\n" ++
      "            </tem:actualizarHotel>\n" ++
      "          </soapenv:Body>\n" ++
      "        </soapenv:Envelope>", ?_⟩
    simp only [wsHotel.actualizarHotel_body, String.append_assoc]

/-! ## C8: boolean decoding -/

/-- C8 counterexample.  The claim fails in two independent ways.
First, `wsReservas.safe_bool` decodes `" true "` (with surrounding
whitespace) to `true`, and the end-to-end result-node decode of
`wsHotel.actualizarHotel` decodes `" True "` to a success — yet neither
text equals `"true"` under case-insensitive comparison (their lowercasings
keep the spaces): these decoders strip first.  Second, the local
`safe_bool` of `wsIntegracionDetalleServicios` (lines 536-537 and
681-682) decodes `"1"` and `"yes"` to `true` — both end-to-end on the
`EsActivo` field of the paginated space search (line 711) — although the
claim says exactly these texts decode to false. -/
theorem C8_counterexample :
    wsReservas.safe_bool " true " = true
    ∧ pyLower " true " ≠ "true"
    ∧ wsHotel.actualizarHotel ⟨some 1, some "H", none, none, none⟩
        (.response ⟨200, "x", .ok (envWith "actualizarHotelResult" (some " True ") [])⟩)
      = .exito true ("Hotel " ++ apos ++ "H" ++ apos ++ " actualizado exitosamente.")
    ∧ pyLower " True " ≠ "true"
    ∧ wsIntegracionDetalleServicios.safe_bool "1" = true
    ∧ wsIntegracionDetalleServicios.safe_bool "yes" = true
    ∧ wsIntegracionDetalleServicios.decodeEsActivo
        (xmlE "DTO_WS_IntegracionDetalleEspacio" none
          [xmlE "EsActivo" (some "1") []]) = true := by
  exact ⟨rfl, by decide, rfl, by decide, rfl, rfl, rfl⟩

/-- C8 (amended).  Boolean response decoding comes in three styles, none
of them plain case-insensitive equality on the raw text.
(a) Strip-then-compare: result-node booleans (`actualizarHotel`),
`wsReservas.safe_bool`, and the `wsUsuarios` field decodes that go
through the stripping `get_text` (e.g. `EsActivo` in `iniciarSesion`)
are true iff the text, stripped of surrounding whitespace, equals
`"true"` case-insensitively — there `"1"`, `"yes"` and garbage decode to
false.  (b) Lower-only: `findtext`-based field booleans in the
`wsHotel`/`wsReservas` record decoders compare the lowercased text to
`"true"` with no stripping.  (c) Membership: the local `safe_bool` of
`wsIntegracionDetalleServicios` is true iff the stripped, lowercased
text is `"true"`, `"1"` or `"yes"` — used for `BreakfastIncluded` and
the `EsActivo` field of the paginated space search. -/
theorem C8_amended (s t nom : String) (id : Int) (root c : XmlElem)
    (hid : 0 < id) (hnom : nom ≠ "")
    (hfind : findDesc "actualizarHotelResult" root = some c) (htext : c.text = some t) :
    wsHotel.actualizarHotel ⟨some id, some nom, none, none, none⟩
        (.response ⟨200, "", .ok root⟩)
      = (if pyLower (pyStrip t) = "true"
          then .exito true ("Hotel " ++ apos ++ nom ++ apos ++ " actualizado exitosamente.")
          else .exito false "No se pudo actualizar el hotel.")
    ∧ wsReservas.safe_bool s = decide (pyLower (pyStrip s) = "true")
    ∧ wsUsuarios.decodeEsActivo (xmlE "Usuario" none [xmlE "EsActivo" (some s) []])
        = decide (pyLower (pyStrip s) = "true")
    ∧ wsReservas.safe_bool "1" = false ∧ wsReservas.safe_bool "yes" = false
    ∧ wsReservas.safe_bool "TRUE" = true
    ∧ wsHotel.decodeHotelNode (xmlE "Hotel" none
        [xmlE "Id" (some "1") [], xmlE "EsActivo" (some s) []])
      = .ok ⟨1, "", "", "", pyLower s = "true"⟩
    ∧ wsIntegracionDetalleServicios.safe_bool s
        = decide (pyLower (pyStrip s) ∈ (["true", "1", "yes"] : List String))
    ∧ wsIntegracionDetalleServicios.decodeEsActivo
        (xmlE "DTO_WS_IntegracionDetalleEspacio" none
          [xmlE "EsActivo" (some "yes") []]) = true
    ∧ wsIntegracionDetalleServicios.decodeEsActivo
        (xmlE "DTO_WS_IntegracionDetalleEspacio" none
          [xmlE "EsActivo" (some "garbage") []]) = false
    ∧ wsIntegracionDetalleServicios.decodeBreakfastIncluded
        (xmlE "cotizarReservaResult" none
          [xmlE "BreakfastIncluded" (some " Yes ") []]) = true := by
  have hid' : ¬ id ≤ 0 := by omega
  refine ⟨?_, rfl, ?_, rfl, rfl, rfl, rfl, rfl, rfl, rfl, rfl⟩
  · simp [wsHotel.actualizarHotel, hid', hnom, hfind, htext]
  · by_cases hs : s = ""
    · subst hs; rfl
    · have e1 : findtext "EsActivo" "false"
          (xmlE "Usuario" none [xmlE "EsActivo" (some s) []]) = s := rfl
      simp [wsUsuarios.decodeEsActivo, wsUsuarios.get_text, e1, hs]

/-- C8 witness: the amended theorem applied to the result text `" True "`
and the field text `"1"`. -/
theorem C8_witness :
    wsHotel.actualizarHotel ⟨some 1, some "H", none, none, none⟩
        (.response ⟨200, "", .ok (envWith "actualizarHotelResult" (some " True ") [])⟩)
      = (if pyLower (pyStrip " True ") = "true"
          then .exito true ("Hotel " ++ apos ++ "H" ++ apos ++ " actualizado exitosamente.")
          else .exito false "No se pudo actualizar el hotel.")
    ∧ wsUsuarios.decodeEsActivo (xmlE "Usuario" none [xmlE "EsActivo" (some "1") []])
        = decide (pyLower (pyStrip "1") = "true")
    ∧ wsHotel.decodeHotelNode (xmlE "Hotel" none
        [xmlE "Id" (some "1") [], xmlE "EsActivo" (some "1") []])
      = .ok ⟨1, "", "", "", pyLower "1" = "true"⟩
    ∧ wsIntegracionDetalleServicios.safe_bool "1"
        = decide (pyLower (pyStrip "1") ∈ (["true", "1", "yes"] : List String)) := by
  have h := C8_amended "1" " True " "H" 1
    (envWith "actualizarHotelResult" (some " True ") [])
    (xmlE "actualizarHotelResult" (some " True ") []) (by decide) (by decide) rfl rfl
  exact ⟨h.1, h.2.2.1, h.2.2.2.2.2.2.1, h.2.2.2.2.2.2.2.1⟩

/-! ## C9: POST timeouts -/

/-- C9 counterexample.  The POST of `wsTipoAlimentacion.seleccionarInactivos`
(source line 459) uses a 15-second timeout, not the 30-second timeout the
claim asserts for every call site. -/
theorem C9_counterexample :
    wsTipoAlimentacion.seleccionarInactivos_request.timeout = 15
    ∧ (15 : Nat) ≠ 30 := by
  exact ⟨rfl, by decide⟩

/-- C9 (amended).  Every embedded adapter POST uses a fixed 30-second
timeout except the three read call sites of `wsTipoAlimentacion.py`
(`seleccionarInactivos`, `seleccionarPorId`, `seleccionarPorNombre`,
source lines 459, 539 and 623), which use 15 seconds. -/
theorem C9_amended (hotel_id usuario_id tipo_id : Int) (nombre fi ff now : String)
    (fro ufco : Option String) (eao : Option Bool) :
    (wsHotel.actualizarHotel_request hotel_id nombre fro ufco eao now).timeout = 30
    ∧ (wsHotel.eliminarHotel_request hotel_id).timeout = 30
    ∧ (wsHotel.seleccionarHotelPorId_request hotel_id).timeout = 30
    ∧ (wsHotel.buscarHotelPorNombre_request nombre).timeout = 30
    ∧ wsHotel.seleccionarHoteles_request.timeout = 30
    ∧ (wsReservas.seleccionarReservasPorUsuario_request usuario_id).timeout = 30
    ∧ (wsUsuarios.eliminarUsuario_request usuario_id).timeout = 30
    ∧ (wsEspXRes.espacioDisponible_request hotel_id fi ff).timeout = 30
    ∧ wsTipoAlimentacion.seleccionarInactivos_request.timeout = 15
    ∧ (wsTipoAlimentacion.seleccionarPorId_request tipo_id).timeout = 15
    ∧ (wsTipoAlimentacion.seleccionarPorNombre_request nombre).timeout = 15 := by
  exact ⟨rfl, rfl, rfl, rfl, rfl, rfl, rfl, rfl, rfl, rfl, rfl⟩

/-! ## C10: id validation before the POST -/

/-- C10 counterexample.  `wsReservas.seleccionarReservasPorUsuario`
performs no validation: for the non-positive id `-5` it still builds and
issues the POST (its request phase yields the request, never a validation
error), and it goes on to process the HTTP response — here returning the
HTTP-500 failure rather than any validation-error value. -/
theorem C10_counterexample :
    wsReservas.seleccionarReservasPorUsuario_prepare (-5)
      = .ok (wsReservas.seleccionarReservasPorUsuario_request (-5))
    ∧ wsReservas.seleccionarReservasPorUsuario (-5) (.response ⟨500, "err", .error "x"⟩)
      = .error "HTTP 500" (some "err") := by
  exact ⟨rfl, rfl⟩

/-- C10 (amended).  The three cited operations do validate: for an integer
id ≤ 0, `wsHotel.eliminarHotel`, `wsHotel.seleccionarHotelPorId` and
`wsEspXRes.espacioDisponible` return a validation-error value at the
request phase, so no request is built and no POST occurs.  But the
precondition is not repository-wide: `wsReservas.seleccionarReservasPorUsuario`
and `wsUsuarios.eliminarUsuario` build and issue the request for every
integer id. -/
theorem C10_amended (id : Int) (fi ff : String) (hid : id ≤ 0) :
    wsHotel.eliminarHotel_prepare id
      = .error (.error ("El parámetro " ++ apos ++ "hotel_id" ++ apos
          ++ " debe ser un número entero positivo.") none)
    ∧ wsHotel.seleccionarHotelPorId_prepare id
      = .error (.error ("El parámetro " ++ apos ++ "hotel_id" ++ apos
          ++ " debe ser un número entero positivo.") none)
    ∧ wsEspXRes.espacioDisponible_prepare id fi ff
      = .error (.error ("Debe proporcionar un " ++ apos ++ "espacioId" ++ apos
          ++ " válido (entero mayor que 0).") none)
    ∧ (∀ j : Int, wsReservas.seleccionarReservasPorUsuario_prepare j
        = .ok (wsReservas.seleccionarReservasPorUsuario_request j))
    ∧ (∀ j : Int, wsUsuarios.eliminarUsuario_prepare j
        = .ok (wsUsuarios.eliminarUsuario_request j)) := by
  refine ⟨?_, ?_, ?_, fun _ => rfl, fun _ => rfl⟩
  · simp [wsHotel.eliminarHotel_prepare, hid]
  · simp [wsHotel.seleccionarHotelPorId_prepare, hid]
  · simp [wsEspXRes.espacioDisponible_prepare, hid]

/-- C10 witness: the amended theorem applied at id `0`. -/
theorem C10_witness :
    wsHotel.eliminarHotel_prepare 0
      = .error (.error ("El parámetro " ++ apos ++ "hotel_id" ++ apos
          ++ " debe ser un número entero positivo.") none)
    ∧ wsEspXRes.espacioDisponible_prepare 0 "2025-01-01" "2025-01-02"
      = .error (.error ("Debe proporcionar un " ++ apos ++ "espacioId" ++ apos
          ++ " válido (entero mayor que 0).") none) := by
  have h := C10_amended 0 "2025-01-01" "2025-01-02" (by decide)
  exact ⟨h.1, h.2.2.1⟩
